import Mathlib

/-!
# Verification of the `diffuse` mount lifecycle & diagnostics controller

Shallow embedding of the Go program in `main.go` (the current iteration) and,
where a claim references it, the older iteration (`part_001`, using the
standard `flag` package).  Pure configuration logic is embedded as Lean
functions; the imperative control flow of `main`, `init`, `writeMemProfile`
and the signal-listener goroutine is embedded as functions from an explicit
environment (results of the OS calls the code performs) to the linear trace
of observable events the code emits.  `os.Exit` terminates the trace
immediately: in Go it does not run deferred functions, so an exit event is
final and any `defer`red action is appended only on the path where `main`
returns normally.
-/

namespace Diffuse

/-! ## Log level resolution (`init` in main.go / part_001)

`slog` levels are machine integers; the program only uses the stdlib
constants Debug = -4, Info = 0, Warn = 4, Error = 8 and its own sentinel
`LevelNone = slog.Level(1000)`. -/

def LevelDebug : Int := -4
def LevelInfo : Int := 0
def LevelWarn : Int := 4
def LevelError : Int := 8
def LevelNone : Int := 1000

/-- Result of running `init`: whether `slog.SetDefault` was reached with the
custom text handler, and the `HandlerOptions.Level` value at that point. -/
structure LogConfig where
  installed : Bool
  level : Int
  deriving DecidableEq, Repr

/-- The five token classes of the `switch strings.ToLower(level)` in `init`
(main.go lines 43-55 / part_001 lines 31-43).  Membership tests are on the
already-lowered token. -/
def debugTokens : List String := ["debug", "dbg", "d", "trace", "trc", "t"]
def infoTokens : List String := ["informational", "info", "inf", "i"]
def warnTokens : List String := ["warning", "warn", "wrn", "w"]
def errorTokens : List String := ["error", "err", "e", "fatal", "ftl", "f"]
def disabledTokens : List String := ["off", "none", "null", "nil", "no", "n"]

/-- `strings.ToLower`, embedded character-wise over the string's character
list (the tokens involved are plain ASCII). -/
def toLowerString (s : String) : String := ⟨s.data.map Char.toLower⟩

/-- A token some `case` of the `switch` matches (after lowering). -/
def recognizedToken (t : String) : Bool :=
  t ∈ debugTokens || t ∈ infoTokens || t ∈ warnTokens || t ∈ errorTokens ||
    t ∈ disabledTokens

/-- Embedding of `init` (main.go lines 20-59): `options.Level` starts at
`LevelNone`; a recognized token overwrites it; the disabled tokens hit a
`return` statement *before* `slog.SetDefault(slog.New(handler))` runs, so for
them no handler is installed.  On every other path (absent variable,
unrecognized token, severity token) the handler is installed with the level
that the switch left in `options.Level`. -/
def initLogging (env : Option String) : LogConfig :=
  match env with
  | none => { installed := true, level := LevelNone }
  | some s =>
    let t := toLowerString s
    if t ∈ debugTokens then { installed := true, level := LevelDebug }
    else if t ∈ infoTokens then { installed := true, level := LevelInfo }
    else if t ∈ warnTokens then { installed := true, level := LevelWarn }
    else if t ∈ errorTokens then { installed := true, level := LevelError }
    else if t ∈ disabledTokens then { installed := false, level := LevelNone }
    else { installed := true, level := LevelNone }

/-- The threshold the process-wide logger actually enforces after `init`.
When `slog.SetDefault` was never called, the Go standard library's default
`slog` logger is in effect, and it emits records at `LevelInfo` and above. -/
def effectiveLevel (c : LogConfig) : Int :=
  if c.installed then c.level else LevelInfo

/-- Whether a record at severity `l` is emitted by the process-wide logger
after `init` produced configuration `c` (a `slog` handler is enabled for `l`
iff `l` is at least its configured minimum level). -/
def emits (c : LogConfig) (l : Int) : Bool :=
  effectiveLevel c ≤ l

/-! ## Observable events

One linear trace type for everything the program does that the claims talk
about.  `slog` calls are modelled as a message plus the list of path-valued
attributes they carry. -/

inductive Event where
  | logDebug (msg : String) (attrs : List String)
  | logInfo (msg : String)
  | logError (msg : String) (attrs : List String)
  | printStdout (msg : String)
  | createFile (name : String)
  | closeFile (name : String)
  | writeHeapProfile
  | startCPUProfile
  | stopCPUProfile
  | armMemListener (prefixName : String)
  | newLoopbackRoot (dir : String)
  | mountAttempt (mountpoint : String)
  | serveWait
  | unmountCall
  | exit (code : Nat)
  deriving DecidableEq, Repr

/-- The exit status of a trace: the code of the first `exit` event, `none`
when the trace runs to completion (Go then exits 0 when `main` returns). -/
def exitCode : List Event → Option Nat
  | [] => none
  | .exit c :: _ => some c
  | _ :: es => exitCode es

/-- Number of `stopCPUProfile` events in a trace. -/
def countStops : List Event → Nat
  | [] => 0
  | .stopCPUProfile :: es => countStops es + 1
  | _ :: es => countStops es

/-- Number of `unmountCall` events in a trace. -/
def countUnmounts : List Event → Nat
  | [] => 0
  | .unmountCall :: es => countUnmounts es + 1
  | _ :: es => countUnmounts es

/-- All path attributes carried by `logDebug` events, in trace order. -/
def debugAttrs : List Event → List String
  | [] => []
  | .logDebug _ attrs :: es => attrs ++ debugAttrs es
  | _ :: es => debugAttrs es

/-! ## Heap snapshotting (`writeMemProfile`, main.go lines 61-78)

Each received `SIGUSR1` is one `MemTrigger`; the environment records whether
the `os.Create` and the `f.Close()` of that iteration succeed. -/

structure MemTrigger where
  createOk : Bool
  closeOk : Bool
  deriving DecidableEq, Repr

/-- The file name used by the iteration with counter value `i`:
`fmt.Sprintf("%s-%d.memprof", filename, i)`. -/
def memProfileFilename (filename : String) (i : Nat) : String :=
  filename ++ "-" ++ toString i ++ ".memprof"

/-- The `for range signals` loop body of `writeMemProfile`, with the counter
`i` made explicit: the name is computed from the current `i`, `i` is
incremented unconditionally (also when `os.Create` fails and the body
`continue`s), a create failure is logged at error severity and skips the
write, a close failure is logged at error severity; the loop never exits the
process and always proceeds to the next trigger. -/
def writeMemProfileLoop (filename : String) (i : Nat) :
    List MemTrigger → List Event
  | [] => []
  | t :: rest =>
    let fn := memProfileFilename filename i
    (Event.logDebug "writing memory profile" [fn] ::
      (if t.createOk then
        Event.createFile fn :: Event.writeHeapProfile ::
          (if t.closeOk then [Event.closeFile fn]
           else [Event.closeFile fn,
                 Event.logError "error closing memory profile file" [fn]])
      else [Event.logError "error creating memory profile file" [fn]]))
      ++ writeMemProfileLoop filename (i + 1) rest

/-- `writeMemProfile` starts its counter at 0. -/
def writeMemProfile (filename : String) (sigs : List MemTrigger) :
    List Event :=
  writeMemProfileLoop filename 0 sigs

/-! ## Signal listener goroutine (main.go lines 167-174)

The goroutine body is `<-signals; slog.Info(...); server.Unmount();
slog.Info(...)`: it receives exactly one value from the channel and then
terminates.  `sigs` is the sequence of signals delivered to the channel;
`unmountOk` is the error value returned by `server.Unmount()`, which the
code discards (`server.Unmount()` as a bare statement). -/

inductive Signal where
  | interrupt
  | sigterm
  deriving DecidableEq, Repr

def signalGoroutine (sigs : List Signal) (unmountOk : Bool) : List Event :=
  match sigs with
  | [] => []
  | _ :: _ =>
    [Event.logInfo "unmounting filesystem", Event.unmountCall,
     Event.logInfo "filesystem unmounted"]

/-! ## `main` (main.go lines 80-176)

The parsed command-line options, and the environment: the outcome of each
OS call `main` performs, plus the signals later delivered to the unmount
channel. -/

structure Options where
  version : Bool
  allowOther : Bool
  readOnly : Bool
  directMount : Bool
  strict : Bool
  cpuProfile : Option String
  memProfile : Option String
  debug : Bool
  mountpoint : String
  original : String
  deriving DecidableEq, Repr

structure Env where
  /-- whether `flags.Parse` succeeds (it fails when a required positional
  argument is missing, or on any other malformed input) -/
  parseOk : Bool
  /-- whether `os.Create(*options.CpuProfile)` succeeds -/
  cpuCreateOk : Bool
  /-- whether `fs.NewLoopbackRoot(options.Args.Original)` succeeds -/
  loopbackRootOk : Bool
  /-- whether `fs.Mount(...)` succeeds -/
  mountOk : Bool
  /-- the interrupt/termination signals delivered to the unmount channel -/
  signals : List Signal
  /-- the (discarded) result of `server.Unmount()` in the listener -/
  unmountOk : Bool
  deriving DecidableEq, Repr

/-- The fuse.MountOptions / fs.Options fields `main` fills in
(main.go lines 131-155), restricted to the fields the program sets. -/
structure FuseMountOptions where
  allowOther : Bool
  debug : Bool
  directMount : Bool
  directMountStrict : Bool
  fsName : String
  name : String
  options : List String
  deriving DecidableEq, Repr

/-- Translation from parsed command-line options to mount options
(main.go lines 140-155): `DirectMountStrict` is `options.DirectMount &&
options.Strict`; `default_permissions` is appended exactly when
`opts.AllowOther` is set; `ro` is appended exactly when `options.ReadOnly`
is set. -/
def buildMountOptions (o : Options) : FuseMountOptions :=
  let base : FuseMountOptions :=
    { allowOther := o.allowOther
      debug := o.debug
      directMount := o.directMount
      directMountStrict := o.directMount && o.strict
      fsName := o.original
      name := "diffuse"
      options := [] }
  let withDP :=
    if base.allowOther then
      { base with options := base.options ++ ["default_permissions"] }
    else base
  if o.readOnly then { withDP with options := withDP.options ++ ["ro"] }
  else withDP

/-- Events of the `options.MemProfile != nil` block (main.go lines 114-119):
log the hint and arm the SIGUSR1 listener goroutine. -/
def memProfileEvents (o : Options) : List Event :=
  match o.memProfile with
  | some mp =>
    [Event.logInfo "send SIGUSR1 to dump memory profile",
     Event.armMemListener mp]
  | none => []

/-- The graceful-unmount note (main.go lines 120-122). -/
def profileNoteEvents (o : Options) : List Event :=
  if o.cpuProfile.isSome || o.memProfile.isSome then
    [Event.logInfo "you must unmount gracefully, otherwise the profile file(s) will stay empty!"]
  else []

/-- `main` from the memory-profile block onward.  `cpuStarted` records
whether `pprof.StartCPUProfile` ran, i.e. whether `defer
pprof.StopCPUProfile()` is pending: the deferred stop is appended only on
the path where `main` returns (after `server.Wait()`); the `os.Exit(1)`
paths end the process without running deferred functions. -/
def mainAfterCpu (o : Options) (env : Env) (cpuStarted : Bool) :
    List Event :=
  memProfileEvents o ++ profileNoteEvents o ++
    (Event.logDebug "creating loopback root" [o.original] ::
      Event.newLoopbackRoot o.original ::
      (if env.loopbackRootOk then
        Event.mountAttempt o.mountpoint ::
          (if env.mountOk then
            Event.logInfo "loopback filesystem mounted" ::
              (signalGoroutine env.signals env.unmountOk ++
                (Event.serveWait ::
                  (if cpuStarted then [Event.stopCPUProfile] else [])))
          else
            [Event.logError "loopback filesystem mount failed"
               [o.original, o.mountpoint],
             Event.exit 1])
      else
        [Event.logError "error creating loopback filesystem" [o.original],
         Event.exit 1]))

/-- `main` (main.go lines 80-176) as a trace: parse failure logs and exits
1; then the CPU-profile block either starts the capture (registering the
deferred stop) or, when the destination file cannot be created, logs and
exits 3; the rest is `mainAfterCpu`. -/
def mainRun (o : Options) (env : Env) : List Event :=
  if env.parseOk then
    Event.logDebug "args" [] ::
      (match o.cpuProfile with
      | some cp =>
        Event.logInfo "writing cpu profile" ::
          (if env.cpuCreateOk then
            Event.createFile cp :: Event.startCPUProfile ::
              mainAfterCpu o env true
          else
            [Event.logError "error opening CPU profile output file" [cp],
             Event.exit 3])
      | none => mainAfterCpu o env false)
  else
    [Event.logError "error parsing command line" [], Event.exit 1]

/-- The older iteration (part_001 lines 80-85): with fewer than two
positional arguments it prints the usage text and the flag defaults and
exits 2. -/
def usageCheck (nArgs : Nat) : List Event :=
  if nArgs < 2 then
    [Event.printStdout "usage: diffuse MOUNTPOINT ORIGINAL",
     Event.printStdout "options:",
     Event.exit 2]
  else []

/-! ## Helper lemmas about traces -/

theorem countStops_append (a b : List Event) :
    countStops (a ++ b) = countStops a + countStops b := by
  induction a with
  | nil => simp [countStops]
  | cons e es ih => cases e <;> simp [countStops, ih] <;> omega

theorem debugAttrs_append (a b : List Event) :
    debugAttrs (a ++ b) = debugAttrs a ++ debugAttrs b := by
  induction a with
  | nil => rfl
  | cons e es ih => cases e <;> simp [debugAttrs, ih]

theorem exitCode_eq_of_no_exit (a b : List Event)
    (h : ∀ c, Event.exit c ∉ a) : exitCode (a ++ b) = exitCode b := by
  induction a with
  | nil => rfl
  | cons e es ih =>
    have hes : ∀ c, Event.exit c ∉ es :=
      fun c hc => h c (List.mem_cons_of_mem _ hc)
    cases e <;>
      first
        | exact absurd (List.mem_cons_self _ _) (h _)
        | simpa [exitCode] using ih hes

theorem exit_not_mem_memProfileEvents (o : Options) (c : Nat) :
    Event.exit c ∉ memProfileEvents o := by
  cases h : o.memProfile <;> simp [memProfileEvents, h]

theorem exit_not_mem_profileNoteEvents (o : Options) (c : Nat) :
    Event.exit c ∉ profileNoteEvents o := by
  unfold profileNoteEvents
  split <;> simp

theorem exit_not_mem_signalGoroutine (sigs : List Signal) (r : Bool)
    (c : Nat) : Event.exit c ∉ signalGoroutine sigs r := by
  cases sigs <;> simp [signalGoroutine]

theorem countStops_memProfileEvents (o : Options) :
    countStops (memProfileEvents o) = 0 := by
  cases h : o.memProfile <;> simp [memProfileEvents, h, countStops]

theorem countStops_profileNoteEvents (o : Options) :
    countStops (profileNoteEvents o) = 0 := by
  unfold profileNoteEvents
  split <;> simp [countStops]

theorem countStops_signalGoroutine (sigs : List Signal) (r : Bool) :
    countStops (signalGoroutine sigs r) = 0 := by
  cases sigs <;> rfl

theorem mountAttempt_not_mem_memProfileEvents (o : Options) (mp : String) :
    Event.mountAttempt mp ∉ memProfileEvents o := by
  cases h : o.memProfile <;> simp [memProfileEvents, h]

theorem mountAttempt_not_mem_profileNoteEvents (o : Options) (mp : String) :
    Event.mountAttempt mp ∉ profileNoteEvents o := by
  unfold profileNoteEvents
  split <;> simp

theorem debugAttrs_writeMemProfileLoop (filename : String)
    (sigs : List MemTrigger) : ∀ i : Nat,
    debugAttrs (writeMemProfileLoop filename i sigs) =
      (List.range sigs.length).map
        (fun n => memProfileFilename filename (i + n)) := by
  induction sigs with
  | nil => intro i; rfl
  | cons t rest ih =>
    intro i
    rcases t with ⟨co, cl⟩
    have hbranch :
        debugAttrs (writeMemProfileLoop filename i (⟨co, cl⟩ :: rest)) =
          memProfileFilename filename i ::
            debugAttrs (writeMemProfileLoop filename (i + 1) rest) := by
      cases co <;> cases cl <;>
        simp [writeMemProfileLoop, debugAttrs_append, debugAttrs]
    rw [hbranch, ih (i + 1), List.length_cons, List.range_succ_eq_map,
      List.map_cons, List.map_map]
    congr 1
    apply List.map_congr_left
    intro n _
    simp only [Function.comp_apply]
    congr 1
    omega

theorem createFile_mem_writeMemProfileLoop (filename : String)
    (sigs : List MemTrigger) : ∀ (i n : Nat) (h : n < sigs.length),
    (sigs.get ⟨n, h⟩).createOk = true →
    Event.createFile (memProfileFilename filename (i + n)) ∈
      writeMemProfileLoop filename i sigs := by
  induction sigs with
  | nil => intro i n h; exact absurd h (by simp)
  | cons t rest ih =>
    intro i n h hco
    cases n with
    | zero =>
      simp only [List.get] at hco
      simp [writeMemProfileLoop, hco]
    | succ m =>
      have hm : m < rest.length := Nat.lt_of_succ_lt_succ h
      have hmem := ih (i + 1) m hm (by simpa [List.get] using hco)
      have hidx : i + 1 + m = i + (m + 1) := by omega
      rw [hidx] at hmem
      rw [writeMemProfileLoop]
      exact List.mem_append_right _ hmem

theorem logErrorCreate_mem_writeMemProfileLoop (filename : String)
    (sigs : List MemTrigger) : ∀ (i n : Nat) (h : n < sigs.length),
    (sigs.get ⟨n, h⟩).createOk = false →
    Event.logError "error creating memory profile file"
        [memProfileFilename filename (i + n)] ∈
      writeMemProfileLoop filename i sigs := by
  induction sigs with
  | nil => intro i n h; exact absurd h (by simp)
  | cons t rest ih =>
    intro i n h hco
    cases n with
    | zero =>
      simp only [List.get] at hco
      simp [writeMemProfileLoop, hco]
    | succ m =>
      have hm : m < rest.length := Nat.lt_of_succ_lt_succ h
      have hmem := ih (i + 1) m hm (by simpa [List.get] using hco)
      have hidx : i + 1 + m = i + (m + 1) := by omega
      rw [hidx] at hmem
      rw [writeMemProfileLoop]
      exact List.mem_append_right _ hmem

theorem logErrorClose_mem_writeMemProfileLoop (filename : String)
    (sigs : List MemTrigger) : ∀ (i n : Nat) (h : n < sigs.length),
    (sigs.get ⟨n, h⟩).createOk = true →
    (sigs.get ⟨n, h⟩).closeOk = false →
    Event.logError "error closing memory profile file"
        [memProfileFilename filename (i + n)] ∈
      writeMemProfileLoop filename i sigs := by
  induction sigs with
  | nil => intro i n h; exact absurd h (by simp)
  | cons t rest ih =>
    intro i n h hco hcl
    cases n with
    | zero =>
      simp only [List.get] at hco hcl
      simp [writeMemProfileLoop, hco, hcl]
    | succ m =>
      have hm : m < rest.length := Nat.lt_of_succ_lt_succ h
      have hmem := ih (i + 1) m hm (by simpa [List.get] using hco)
        (by simpa [List.get] using hcl)
      have hidx : i + 1 + m = i + (m + 1) := by omega
      rw [hidx] at hmem
      rw [writeMemProfileLoop]
      exact List.mem_append_right _ hmem

theorem exit_not_mem_writeMemProfileLoop (filename : String)
    (sigs : List MemTrigger) : ∀ (i c : Nat),
    Event.exit c ∉ writeMemProfileLoop filename i sigs := by
  induction sigs with
  | nil => intro i c; simp [writeMemProfileLoop]
  | cons t rest ih =>
    intro i c
    rcases t with ⟨co, cl⟩
    cases co <;> cases cl <;>
      simp [writeMemProfileLoop, ih (i + 1) c]

theorem exitCode_memProfileEvents_append (o : Options) (rest : List Event) :
    exitCode (memProfileEvents o ++ rest) = exitCode rest :=
  exitCode_eq_of_no_exit _ _ (exit_not_mem_memProfileEvents o)

theorem exitCode_profileNoteEvents_append (o : Options) (rest : List Event) :
    exitCode (profileNoteEvents o ++ rest) = exitCode rest :=
  exitCode_eq_of_no_exit _ _ (exit_not_mem_profileNoteEvents o)

theorem exitCode_signalGoroutine_append (sigs : List Signal) (r : Bool)
    (rest : List Event) :
    exitCode (signalGoroutine sigs r ++ rest) = exitCode rest :=
  exitCode_eq_of_no_exit _ _ (exit_not_mem_signalGoroutine sigs r)

/-! ## Sample configurations used by witnesses and counterexamples -/

def sampleOptions : Options :=
  { version := false, allowOther := false, readOnly := false,
    directMount := false, strict := false, cpuProfile := none,
    memProfile := none, debug := false, mountpoint := "/mnt",
    original := "/data" }

def sampleEnv : Env :=
  { parseOk := true, cpuCreateOk := true, loopbackRootOk := true,
    mountOk := true, signals := [], unmountOk := true }

/-! ## Claims -/

/-- C2: the claim says every disabled token ("off", "none", "null", "nil",
"no", "n", any casing) resolves the process-wide logging threshold to a
sentinel strictly above every real severity so that no message is ever
emitted.  The code sets `options.Level = LevelNone` but then `return`s
before `slog.SetDefault`, so the custom handler is never installed: the
stdlib default `slog` logger (threshold Info) stays in effect and messages
at Info and above are still emitted.  This theorem evaluates the embedded
`init` at the failing inputs "off" and "OFF". -/
theorem c2_disabled_token_still_emits :
    (initLogging (some "off")).installed = false ∧
    (initLogging (some "off")).level = LevelNone ∧
    emits (initLogging (some "off")) LevelInfo = true ∧
    emits (initLogging (some "off")) LevelError = true ∧
    (initLogging (some "OFF")).installed = false ∧
    emits (initLogging (some "OFF")) LevelInfo = true := by
  decide

/-- C9: when the log-level environment variable is absent or holds an
unrecognized token, `init` installs the text handler with the initial
threshold `slog.Level(1000)` (the `LevelNone` sentinel), which is above
every real severity, so no message at Debug, Info, Warn or Error level is
emitted. -/
theorem c9_default_threshold_is_sentinel (s : String)
    (hs : recognizedToken (toLowerString s) = false) :
    initLogging none = { installed := true, level := LevelNone } ∧
    initLogging (some s) = { installed := true, level := LevelNone } ∧
    LevelError < LevelNone ∧
    (∀ l : Int, l ≤ LevelError →
      emits (initLogging none) l = false ∧
      emits (initLogging (some s)) l = false) := by
  simp only [recognizedToken, Bool.or_eq_false_iff, decide_eq_false_iff_not] at hs
  obtain ⟨⟨⟨⟨h1, h2⟩, h3⟩, h4⟩, h5⟩ := hs
  have hsome : initLogging (some s) = { installed := true, level := LevelNone } := by
    simp [initLogging, h1, h2, h3, h4, h5]
  refine ⟨rfl, hsome, by decide, ?_⟩
  intro l hl
  constructor
  · simp only [initLogging, emits, effectiveLevel, if_pos, LevelNone]
    simp only [decide_eq_false_iff_not, not_le]
    have : LevelError < (1000 : Int) := by decide
    omega
  · rw [hsome]
    simp only [emits, effectiveLevel, if_pos, LevelNone]
    simp only [decide_eq_false_iff_not, not_le]
    have : LevelError < (1000 : Int) := by decide
    omega

/-- Witness for C9 at the concrete unrecognized token "verbose". -/
theorem c9_default_threshold_is_sentinel_witness :
    initLogging (some "verbose") = { installed := true, level := LevelNone } ∧
    emits (initLogging (some "verbose")) LevelError = false := by
  have h := c9_default_threshold_is_sentinel "verbose" (by decide)
  exact ⟨h.2.1, (h.2.2.2 LevelError (by decide)).2⟩

/-- C3: the signal listener goroutine receives exactly one value from the
signal channel and then terminates: for every non-empty sequence of
delivered interrupt/termination signals it performs the unmount sequence
exactly once — a second signal does not trigger a second unmount. -/
theorem c3_signal_listener_single_shot (sigs : List Signal) (r : Bool)
    (h : sigs ≠ []) :
    signalGoroutine sigs r =
      [Event.logInfo "unmounting filesystem", Event.unmountCall,
       Event.logInfo "filesystem unmounted"] ∧
    countUnmounts (signalGoroutine sigs r) = 1 := by
  cases sigs with
  | nil => exact absurd rfl h
  | cons a rest => exact ⟨rfl, rfl⟩

/-- Witness for C3: two signals delivered back to back still yield exactly
one unmount call. -/
theorem c3_signal_listener_single_shot_witness :
    countUnmounts (signalGoroutine [Signal.interrupt, Signal.sigterm] false) = 1 :=
  (c3_signal_listener_single_shot [Signal.interrupt, Signal.sigterm] false
    (by decide)).2

/-- C10: the listener discards the result of `server.Unmount()` — the trace
is independent of whether the unmount succeeded, no error is logged by the
listener, and the "filesystem unmounted" message is emitted regardless. -/
theorem c10_unmount_result_discarded (sigs : List Signal) (r : Bool) :
    signalGoroutine sigs r = signalGoroutine sigs true ∧
    (∀ msg attrs, Event.logError msg attrs ∉ signalGoroutine sigs r) ∧
    (sigs ≠ [] →
      Event.logInfo "filesystem unmounted" ∈ signalGoroutine sigs r) := by
  cases sigs <;> simp [signalGoroutine]

/-- Witness for C10: with a failing unmount the trace still ends in the
"filesystem unmounted" message. -/
theorem c10_unmount_result_discarded_witness :
    Event.logInfo "filesystem unmounted" ∈
      signalGoroutine [Signal.interrupt] false :=
  (c10_unmount_result_discarded [Signal.interrupt] false).2.2 (by decide)

/-- C4: the n-th heap-snapshot trigger (counting from 0) uses the file name
built from the configured prefix and sequence number n: the names attempted
are exactly prefix-0, prefix-1, prefix-2, … in order, regardless of earlier
create failures; and every trigger whose create succeeds writes to the file
carrying its own sequence number. -/
theorem c4_memprofile_sequence_numbers (filename : String)
    (sigs : List MemTrigger) :
    debugAttrs (writeMemProfile filename sigs) =
      (List.range sigs.length).map (fun n => memProfileFilename filename n) ∧
    ∀ (n : Nat) (h : n < sigs.length), (sigs.get ⟨n, h⟩).createOk = true →
      Event.createFile (memProfileFilename filename n) ∈
        writeMemProfile filename sigs := by
  constructor
  · have h := debugAttrs_writeMemProfileLoop filename sigs 0
    simpa using h
  · intro n h hco
    have hmem := createFile_mem_writeMemProfileLoop filename sigs 0 n h hco
    simpa using hmem

/-- Witness for C4: the second trigger (sequence number 1) creates
prof-1.memprof although the first trigger's create failed. -/
theorem c4_memprofile_sequence_numbers_witness :
    Event.createFile (memProfileFilename "prof" 1) ∈
      writeMemProfile "prof" [⟨false, true⟩, ⟨true, true⟩] :=
  (c4_memprofile_sequence_numbers "prof" [⟨false, true⟩, ⟨true, true⟩]).2
    1 (by decide) (by decide)

/-- C5: a heap-snapshot attempt that fails to create or to close its file
logs the failure at error severity and the loop continues: no exit event
ever occurs, every delivered trigger is processed (one attempt per
trigger), and each failing attempt leaves an error-severity log entry
naming its own file. -/
theorem c5_memprofile_failure_recovered (filename : String)
    (sigs : List MemTrigger) :
    (∀ c, Event.exit c ∉ writeMemProfile filename sigs) ∧
    (debugAttrs (writeMemProfile filename sigs)).length = sigs.length ∧
    ∀ (n : Nat) (h : n < sigs.length),
      ((sigs.get ⟨n, h⟩).createOk = false →
        Event.logError "error creating memory profile file"
          [memProfileFilename filename n] ∈ writeMemProfile filename sigs) ∧
      ((sigs.get ⟨n, h⟩).createOk = true →
        (sigs.get ⟨n, h⟩).closeOk = false →
        Event.logError "error closing memory profile file"
          [memProfileFilename filename n] ∈ writeMemProfile filename sigs) := by
  refine ⟨fun c => exit_not_mem_writeMemProfileLoop filename sigs 0 c, ?_, ?_⟩
  · rw [writeMemProfile, debugAttrs_writeMemProfileLoop]
    simp
  · intro n h
    constructor
    · intro hco
      have hmem := logErrorCreate_mem_writeMemProfileLoop filename sigs 0 n h hco
      simpa using hmem
    · intro hco hcl
      have hmem :=
        logErrorClose_mem_writeMemProfileLoop filename sigs 0 n h hco hcl
      simpa using hmem

/-- Witness for C5: a failed create on trigger 0 and a failed close on
trigger 1 are both logged at error severity, and trigger 1 was still
processed after trigger 0 failed. -/
theorem c5_memprofile_failure_recovered_witness :
    Event.logError "error creating memory profile file"
      [memProfileFilename "mem" 0] ∈
        writeMemProfile "mem" [⟨false, true⟩, ⟨true, false⟩] ∧
    Event.logError "error closing memory profile file"
      [memProfileFilename "mem" 1] ∈
        writeMemProfile "mem" [⟨false, true⟩, ⟨true, false⟩] := by
  have h := c5_memprofile_failure_recovered "mem" [⟨false, true⟩, ⟨true, false⟩]
  exact ⟨(h.2.2 0 (by decide)).1 (by decide),
    (h.2.2 1 (by decide)).2 (by decide) (by decide)⟩

/-- C7: the option translation sets the "allow other users" flag and the
kernel-side default_permissions option together: with allow-other requested
both are set, without it the default_permissions option is absent — never
one without the other. -/
theorem c7_allow_other_default_permissions (o : Options) :
    (o.allowOther = true →
      (buildMountOptions o).allowOther = true ∧
      "default_permissions" ∈ (buildMountOptions o).options) ∧
    (o.allowOther = false →
      (buildMountOptions o).allowOther = false ∧
      "default_permissions" ∉ (buildMountOptions o).options) := by
  rcases o with ⟨v, ao, ro, dm, st, cp, mp, dbg, mtp, org⟩
  cases ao <;> cases ro <;> simp [buildMountOptions]

/-- Witness for C7 at two concrete configurations: with allow-other the
default_permissions option is present, without it it is absent. -/
theorem c7_allow_other_default_permissions_witness :
    "default_permissions" ∈
      (buildMountOptions { sampleOptions with allowOther := true }).options ∧
    "default_permissions" ∉ (buildMountOptions sampleOptions).options := by
  exact ⟨((c7_allow_other_default_permissions
      { sampleOptions with allowOther := true }).1 rfl).2,
    ((c7_allow_other_default_permissions sampleOptions).2 rfl).2⟩

/-- C1 counterexample: with CPU profiling enabled and the capture started,
a backend-construction failure makes the program call os.Exit(1), which in
Go does not run deferred functions: the deferred pprof.StopCPUProfile never
runs, so on this exit path the capture is not stopped, contradicting the
claim that it is stopped exactly once on every exit path. -/
theorem c1_cpu_stop_counterexample :
    Event.startCPUProfile ∈
      mainRun { sampleOptions with cpuProfile := some "cpu.prof" }
        { sampleEnv with loopbackRootOk := false } ∧
    countStops (mainRun { sampleOptions with cpuProfile := some "cpu.prof" }
        { sampleEnv with loopbackRootOk := false }) = 0 ∧
    exitCode (mainRun { sampleOptions with cpuProfile := some "cpu.prof" }
        { sampleEnv with loopbackRootOk := false }) = some 1 := by
  decide

/-- C1 (amended): once the CPU capture has started, the deferred stop runs
exactly once on every path where `main` returns — normal completion and
signal-triggered shutdown, i.e. whenever backend construction and mount
succeed, for any sequence of delivered signals — while on the fatal setup
paths after the capture began (backend-construction or mount failure) the
process exits with status 1 without ever stopping the capture. -/
theorem c1_cpu_stop_on_return_paths (o : Options) (env : Env) (cp : String)
    (hp : env.parseOk = true) (hcp : o.cpuProfile = some cp)
    (hcc : env.cpuCreateOk = true) :
    (env.loopbackRootOk = true → env.mountOk = true →
      countStops (mainRun o env) = 1 ∧ exitCode (mainRun o env) = none) ∧
    ((env.loopbackRootOk = false ∨ env.mountOk = false) →
      countStops (mainRun o env) = 0 ∧ exitCode (mainRun o env) = some 1) := by
  have htr : mainRun o env =
      Event.logDebug "args" [] :: Event.logInfo "writing cpu profile" ::
        Event.createFile cp :: Event.startCPUProfile ::
          mainAfterCpu o env true := by
    simp [mainRun, hp, hcp, hcc]
  constructor
  · intro hl hm
    rw [htr]
    constructor
    · simp [countStops, mainAfterCpu, hl, hm, countStops_append,
        countStops_memProfileEvents, countStops_profileNoteEvents,
        countStops_signalGoroutine]
    · simp [exitCode, mainAfterCpu, hl, hm, exitCode_memProfileEvents_append,
        exitCode_profileNoteEvents_append, exitCode_signalGoroutine_append]
  · intro hlm
    rw [htr]
    have hfail : countStops (mainAfterCpu o env true) = 0 ∧
        exitCode (mainAfterCpu o env true) = some 1 := by
      rcases hlm with hl | hm
      · constructor
        · simp [mainAfterCpu, hl, countStops, countStops_append,
            countStops_memProfileEvents, countStops_profileNoteEvents]
        · simp [mainAfterCpu, hl, exitCode, exitCode_memProfileEvents_append,
            exitCode_profileNoteEvents_append]
      · cases hl : env.loopbackRootOk with
        | false =>
          constructor
          · simp [mainAfterCpu, hl, countStops, countStops_append,
              countStops_memProfileEvents, countStops_profileNoteEvents]
          · simp [mainAfterCpu, hl, exitCode, exitCode_memProfileEvents_append,
              exitCode_profileNoteEvents_append]
        | true =>
          constructor
          · simp [mainAfterCpu, hl, hm, countStops, countStops_append,
              countStops_memProfileEvents, countStops_profileNoteEvents]
          · simp [mainAfterCpu, hl, hm, exitCode,
              exitCode_memProfileEvents_append,
              exitCode_profileNoteEvents_append]
    constructor
    · simp [countStops, hfail.1]
    · simp [exitCode, hfail.2]

/-- Witness for the amended C1: a concrete successful run with CPU
profiling enabled stops the capture exactly once. -/
theorem c1_cpu_stop_on_return_paths_witness :
    countStops (mainRun { sampleOptions with cpuProfile := some "cpu.prof" }
      sampleEnv) = 1 :=
  ((c1_cpu_stop_on_return_paths
      { sampleOptions with cpuProfile := some "cpu.prof" } sampleEnv
      "cpu.prof" rfl rfl rfl).1 rfl rfl).1

/-- C6: when constructing the loopback (Passthrough) backend fails, the
process exits with a non-zero status (1), the error log names the offending
source path, and no mount attempt is ever made. -/
theorem c6_backend_failure_fatal (o : Options) (env : Env)
    (hp : env.parseOk = true)
    (hc : o.cpuProfile = none ∨ env.cpuCreateOk = true)
    (hl : env.loopbackRootOk = false) :
    (∃ c, exitCode (mainRun o env) = some c ∧ c ≠ 0) ∧
    Event.logError "error creating loopback filesystem" [o.original] ∈
      mainRun o env ∧
    ∀ mp, Event.mountAttempt mp ∉ mainRun o env := by
  have key : ∀ b : Bool,
      exitCode (mainAfterCpu o env b) = some 1 ∧
      Event.logError "error creating loopback filesystem" [o.original] ∈
        mainAfterCpu o env b ∧
      ∀ mp, Event.mountAttempt mp ∉ mainAfterCpu o env b := by
    intro b
    refine ⟨?_, ?_, ?_⟩
    · simp [mainAfterCpu, hl, exitCode, exitCode_memProfileEvents_append,
        exitCode_profileNoteEvents_append]
    · simp [mainAfterCpu, hl]
    · intro mp
      simp [mainAfterCpu, hl, mountAttempt_not_mem_memProfileEvents,
        mountAttempt_not_mem_profileNoteEvents]
  cases hcp : o.cpuProfile with
  | none =>
    obtain ⟨he, hm, hnm⟩ := key false
    have htr : mainRun o env =
        Event.logDebug "args" [] :: mainAfterCpu o env false := by
      simp [mainRun, hp, hcp]
    rw [htr]
    refine ⟨⟨1, ?_, one_ne_zero⟩, ?_, ?_⟩
    · simpa [exitCode] using he
    · exact List.mem_cons_of_mem _ hm
    · intro mp
      simp only [List.mem_cons, not_or]
      exact ⟨by simp, hnm mp⟩
  | some cp =>
    have hcc : env.cpuCreateOk = true := by
      rcases hc with h | h
      · rw [hcp] at h
        exact absurd h (by simp)
      · exact h
    obtain ⟨he, hm, hnm⟩ := key true
    have htr : mainRun o env =
        Event.logDebug "args" [] :: Event.logInfo "writing cpu profile" ::
          Event.createFile cp :: Event.startCPUProfile ::
            mainAfterCpu o env true := by
      simp [mainRun, hp, hcp, hcc]
    rw [htr]
    refine ⟨⟨1, ?_, one_ne_zero⟩, ?_, ?_⟩
    · simpa [exitCode] using he
    · exact List.mem_cons_of_mem _ (List.mem_cons_of_mem _
        (List.mem_cons_of_mem _ (List.mem_cons_of_mem _ hm)))
    · intro mp
      simp only [List.mem_cons, not_or]
      exact ⟨by simp, by simp, by simp, by simp, hnm mp⟩

/-- Witness for C6: with a non-existent source directory (backend
construction fails) the concrete run exits 1, logs the path, and never
attempts a mount. -/
theorem c6_backend_failure_fatal_witness :
    Event.logError "error creating loopback filesystem"
      [sampleOptions.original] ∈
        mainRun sampleOptions { sampleEnv with loopbackRootOk := false } ∧
    Event.mountAttempt "/mnt" ∉
      mainRun sampleOptions { sampleEnv with loopbackRootOk := false } := by
  have h := c6_backend_failure_fatal sampleOptions
    { sampleEnv with loopbackRootOk := false } rfl (Or.inl rfl) rfl
  exact ⟨h.2.1, h.2.2 "/mnt"⟩

/-- C8 counterexample: in main.go a missing required positional argument is
a parse error, after which the program exits with status 1, not with the
claimed status 2. -/
theorem c8_exit_code_counterexample :
    exitCode (mainRun sampleOptions { sampleEnv with parseOk := false }) =
      some 1 ∧
    exitCode (mainRun sampleOptions { sampleEnv with parseOk := false }) ≠
      some 2 := by
  decide

/-- C8 (amended): a missing required positional argument is treated as a
usage error and the program exits with a non-zero status, but the two
iterations differ on the code: main.go (go-flags, required positionals)
logs the parse error and exits 1, while the older iteration (part_001)
prints the usage text and exits 2. -/
theorem c8_usage_error_exit (o : Options) (env : Env) (n : Nat) :
    (env.parseOk = false →
      exitCode (mainRun o env) = some 1 ∧
      Event.logError "error parsing command line" [] ∈ mainRun o env) ∧
    (n < 2 → exitCode (usageCheck n) = some 2) := by
  constructor
  · intro h
    constructor
    · simp [mainRun, h, exitCode]
    · simp [mainRun, h]
  · intro h
    simp [usageCheck, h, exitCode]

/-- Witness for the amended C8 at concrete inputs: a failed parse exits 1,
one positional argument exits 2 in the older iteration. -/
theorem c8_usage_error_exit_witness :
    exitCode (mainRun sampleOptions { sampleEnv with parseOk := false }) =
      some 1 ∧
    exitCode (usageCheck 1) = some 2 := by
  have h := c8_usage_error_exit sampleOptions
    { sampleEnv with parseOk := false } 1
  exact ⟨(h.1 rfl).1, h.2 (by decide)⟩

end Diffuse
